import Mathlib

/-!
Verification of the influencer-hub backend handlers.

The TypeScript handlers under `src/server/src/handlers` (and their copies in
the repository) are embedded shallowly:

* the relational state is a `DB` record of row lists, one per table of
  `src/server/src/db/schema.ts`;
* timestamps (`new Date()`, `timestamp` columns) are epoch milliseconds,
  passed explicitly as a `now` argument to every handler that reads the clock;
* JavaScript numbers are exact rationals; a `numeric(p, s)` column stores the
  value rounded half away from zero to `s` fractional digits, which is the
  composite of `x.toString()` on insert and `parseFloat` on read through a
  PostgreSQL numeric column (precision overflow is not modelled: the zod input
  ranges keep every value considered here within its column's precision);
* each handler returns an `Except String` result together with the new
  database state and the list of SQL statements it issued, so that thrown
  errors, state changes and the presence or absence of pre-insert existence
  checks are all visible.

Where the repository ships both a placeholder and a full implementation of a
handler, the full implementation is embedded; `createUser` and
`getCampaignMetrics` exist only as placeholders (the latter is exercised by
tests that expect real behaviour), and their placeholder bodies are embedded
as written.
-/

namespace InfluencerHub

/-- Enum `social_platform` of `db/schema.ts`. -/
inductive SocialPlatform
  | tiktok | instagram | x | facebook | onlyfans
deriving DecidableEq, Repr

/-- Enum `content_type`. -/
inductive ContentType
  | post | story | reel | video | image
deriving DecidableEq, Repr

/-- Enum `post_status`. -/
inductive PostStatus
  | draft | scheduled | published | failed
deriving DecidableEq, Repr

/-- Enum `campaign_status`. -/
inductive CampaignStatus
  | planning | active | completed | paused
deriving DecidableEq, Repr

/-- Enum `workflow_status`. -/
inductive WorkflowStatus
  | pending | approved | rejected | completed
deriving DecidableEq, Repr

/-- Enum `priority_level`. -/
inductive PriorityLevel
  | low | medium | high | urgent
deriving DecidableEq, Repr

/-- Enum `ai_request_status`. -/
inductive AIRequestStatus
  | pending | generating | completed | failed
deriving DecidableEq, Repr

/-- Epoch milliseconds, the value of a JavaScript `Date`. -/
abbrev Timestamp := Int

/-- Round half away from zero to an integer, as PostgreSQL does when a
numeric value is stored into a column of smaller scale. -/
def roundHalfAway (x : ℚ) : ℤ :=
  if 0 ≤ x then ⌊x + 1 / 2⌋ else -⌊-x + 1 / 2⌋

/-- The value kept by a `numeric(p, s)` column: the input rounded to `s`
fractional digits. Reading the column back through `parseFloat` yields this
value again. -/
def numericStore (s : ℕ) (q : ℚ) : ℚ :=
  (roundHalfAway (q * (10 ^ s : ℕ))) / (10 ^ s : ℕ)

/-- Row of `users`. -/
structure UserRow where
  id : Nat
  email : String
  username : String
  full_name : String
  bio : Option String
  profile_image_url : Option String
  created_at : Timestamp
  updated_at : Timestamp
deriving DecidableEq, Repr

/-- Row of `platform_accounts`. -/
structure PlatformAccountRow where
  id : Nat
  user_id : Nat
  platform : SocialPlatform
  platform_user_id : String
  username : String
  access_token : Option String
  refresh_token : Option String
  token_expires_at : Option Timestamp
  is_active : Bool
  followers_count : Nat
  following_count : Nat
  created_at : Timestamp
  updated_at : Timestamp
deriving DecidableEq, Repr

/-- Row of `trends`; the three score columns are `numeric(5,2)`,
`numeric(3,2)` and `numeric(5,2)`. -/
structure TrendRow where
  id : Nat
  platform : SocialPlatform
  hashtag : String
  keyword : Option String
  volume : Nat
  engagement_rate : ℚ
  sentiment_score : ℚ
  trending_score : ℚ
  detected_at : Timestamp
  created_at : Timestamp
deriving DecidableEq, Repr

/-- Row of `content`. -/
structure ContentRow where
  id : Nat
  user_id : Nat
  title : String
  description : Option String
  content_type : ContentType
  ai_generated : Bool
  script : Option String
  media_urls : List String
  hashtags : List String
  created_at : Timestamp
  updated_at : Timestamp
deriving DecidableEq, Repr

/-- Row of `scheduled_posts`. -/
structure ScheduledPostRow where
  id : Nat
  user_id : Nat
  content_id : Nat
  platform_account_id : Nat
  scheduled_at : Timestamp
  status : PostStatus
  platform_post_id : Option String
  error_message : Option String
  published_at : Option Timestamp
  created_at : Timestamp
  updated_at : Timestamp
deriving DecidableEq, Repr

/-- Row of `campaigns`; `budget` is `numeric(10,2)`. -/
structure CampaignRow where
  id : Nat
  user_id : Nat
  name : String
  description : Option String
  status : CampaignStatus
  start_date : Timestamp
  end_date : Option Timestamp
  budget : Option ℚ
  target_platforms : List SocialPlatform
  goals : Option String
  created_at : Timestamp
  updated_at : Timestamp
deriving DecidableEq, Repr

/-- Row of `campaign_metrics`; `metric_value` is `numeric(15,4)`. -/
structure CampaignMetricRow where
  id : Nat
  campaign_id : Nat
  platform : SocialPlatform
  metric_name : String
  metric_value : ℚ
  measured_at : Timestamp
  created_at : Timestamp
deriving DecidableEq, Repr

/-- Row of `workflow_tasks`. -/
structure WorkflowTaskRow where
  id : Nat
  user_id : Nat
  campaign_id : Option Nat
  content_id : Option Nat
  title : String
  description : Option String
  status : WorkflowStatus
  priority : PriorityLevel
  assigned_to : Option Nat
  due_date : Option Timestamp
  completed_at : Option Timestamp
  created_at : Timestamp
  updated_at : Timestamp
deriving DecidableEq, Repr

/-- Row of `ai_content_requests`. -/
structure AIContentRequestRow where
  id : Nat
  user_id : Nat
  prompt : String
  content_type : ContentType
  platform : SocialPlatform
  generated_content : Option String
  status : AIRequestStatus
  error_message : Option String
  created_at : Timestamp
  updated_at : Timestamp
deriving DecidableEq, Repr

/-- The whole relational state: one list of rows per table of
`db/schema.ts`. -/
structure DB where
  users : List UserRow
  platformAccounts : List PlatformAccountRow
  trends : List TrendRow
  content : List ContentRow
  scheduledPosts : List ScheduledPostRow
  campaigns : List CampaignRow
  campaignMetrics : List CampaignMetricRow
  workflowTasks : List WorkflowTaskRow
  aiContentRequests : List AIContentRequestRow
deriving DecidableEq, Repr

/-- The empty database. -/
def DB.empty : DB :=
  ⟨[], [], [], [], [], [], [], [], []⟩

/-- Names of the nine tables. -/
inductive TableName
  | users | platformAccounts | trends | content | scheduledPosts
  | campaigns | campaignMetrics | workflowTasks | aiContentRequests
deriving DecidableEq, Repr

/-- The primary-key column of each table of a state, as a list of ids. -/
def DB.tableIds (db : DB) : TableName → List Nat
  | .users => db.users.map (·.id)
  | .platformAccounts => db.platformAccounts.map (·.id)
  | .trends => db.trends.map (·.id)
  | .content => db.content.map (·.id)
  | .scheduledPosts => db.scheduledPosts.map (·.id)
  | .campaigns => db.campaigns.map (·.id)
  | .campaignMetrics => db.campaignMetrics.map (·.id)
  | .workflowTasks => db.workflowTasks.map (·.id)
  | .aiContentRequests => db.aiContentRequests.map (·.id)

/-- One SQL statement issued by a handler. -/
inductive DbOp
  | selectFrom (t : TableName)
  | insertInto (t : TableName)
  | updateOf (t : TableName)
deriving DecidableEq, Repr

/-- Result of one handler call: the returned value or thrown error, the
database state afterwards, and the statements that were executed. -/
structure HResult (α : Type) where
  res : Except String α
  db : DB
  ops : List DbOp

/-- The next value of a `serial` primary-key column. -/
def freshId (ids : List Nat) : Nat :=
  ids.foldr max 0 + 1

/-- JavaScript `v || null` on an optional string: the empty string is falsy
and collapses to `null`. -/
def jsOrNullStr : Option String → Option String
  | some s => if s = "" then none else some s
  | none => none

/-- JavaScript `v || null` on an optional id: `0` is falsy and collapses to
`null`. -/
def jsOrNullNat : Option Nat → Option Nat
  | some n => if n = 0 then none else some n
  | none => none

/-- JavaScript truthiness of an optional id, as tested by `if (input.x)`. -/
def jsTruthyNat : Option Nat → Bool
  | some n => n != 0
  | none => false

/-- JavaScript `v || d` on an optional count: `0` is falsy and collapses to
the default. -/
def jsOrNum (o : Option Nat) (d : Nat) : Nat :=
  match o with
  | some n => if n = 0 then d else n
  | none => d

/-- PostgreSQL error text for a violated foreign-key constraint (the
repository's tests match it with `/violates foreign key constraint/i`). -/
def fkViolation (tbl : String) : String :=
  "insert or update on table " ++ tbl ++ " violates foreign key constraint"

/-! ## Input schemas (`src/server/src/schema.ts`)

`nullable().optional()` fields are collapsed to `Option`: every handler below
treats `null` and `undefined` alike (through `|| null`, `|| false`, `|| 0`,
`|| new Date()` or an explicit `!== undefined && !== null`). -/

/-- `createUserInputSchema`. -/
structure CreateUserInput where
  email : String
  username : String
  full_name : String
  bio : Option String := none
  profile_image_url : Option String := none
deriving DecidableEq, Repr

/-- `createPlatformAccountInputSchema`. -/
structure CreatePlatformAccountInput where
  user_id : Nat
  platform : SocialPlatform
  platform_user_id : String
  username : String
  access_token : Option String := none
  refresh_token : Option String := none
  token_expires_at : Option Timestamp := none
  followers_count : Option Nat := none
  following_count : Option Nat := none
deriving DecidableEq, Repr

/-- `createTrendInputSchema` (the numeric bounds are in
`validCreateTrendInput`). -/
structure CreateTrendInput where
  platform : SocialPlatform
  hashtag : String
  keyword : Option String := none
  volume : Nat
  engagement_rate : ℚ
  sentiment_score : ℚ
  trending_score : ℚ
deriving DecidableEq, Repr

/-- The zod bounds of `createTrendInputSchema`: `engagement_rate` in
`[0, 100]`, `sentiment_score` in `[-1, 1]`, `trending_score` in `[0, 100]`. -/
def validCreateTrendInput (inp : CreateTrendInput) : Prop :=
  0 ≤ inp.engagement_rate ∧ inp.engagement_rate ≤ 100 ∧
  -1 ≤ inp.sentiment_score ∧ inp.sentiment_score ≤ 1 ∧
  0 ≤ inp.trending_score ∧ inp.trending_score ≤ 100

/-- `createContentInputSchema`. -/
structure CreateContentInput where
  user_id : Nat
  title : String
  description : Option String := none
  content_type : ContentType
  ai_generated : Option Bool := none
  script : Option String := none
  media_urls : Option (List String) := none
  hashtags : Option (List String) := none
deriving DecidableEq, Repr

/-- `createScheduledPostInputSchema`. -/
structure CreateScheduledPostInput where
  user_id : Nat
  content_id : Nat
  platform_account_id : Nat
  scheduled_at : Timestamp
deriving DecidableEq, Repr

/-- `createCampaignInputSchema`. -/
structure CreateCampaignInput where
  user_id : Nat
  name : String
  description : Option String := none
  start_date : Timestamp
  end_date : Option Timestamp := none
  budget : Option ℚ := none
  target_platforms : List SocialPlatform
  goals : Option String := none
deriving DecidableEq, Repr

/-- `createCampaignMetricInputSchema`. -/
structure CreateCampaignMetricInput where
  campaign_id : Nat
  platform : SocialPlatform
  metric_name : String
  metric_value : ℚ
  measured_at : Option Timestamp := none
deriving DecidableEq, Repr

/-- `createWorkflowTaskInputSchema`. -/
structure CreateWorkflowTaskInput where
  user_id : Nat
  campaign_id : Option Nat := none
  content_id : Option Nat := none
  title : String
  description : Option String := none
  priority : PriorityLevel
  assigned_to : Option Nat := none
  due_date : Option Timestamp := none
deriving DecidableEq, Repr

/-- `createAIContentRequestInputSchema`. -/
structure CreateAIContentRequestInput where
  user_id : Nat
  prompt : String
  content_type : ContentType
  platform : SocialPlatform
deriving DecidableEq, Repr

/-! ## Row inserts

Each insert enforces the foreign-key constraints declared in
`db/schema.ts` (`.references(...)`), as PostgreSQL does, and appends the row. -/

/-- Insert into `platform_accounts` (`user_id` references `users.id`). -/
def insertPlatformAccountRow (db : DB) (row : PlatformAccountRow) : Except String DB :=
  if db.users.any (fun u => u.id == row.user_id) then
    .ok { db with platformAccounts := db.platformAccounts ++ [row] }
  else .error (fkViolation "platform_accounts")

/-- Insert into `trends` (no foreign keys). -/
def insertTrendRow (db : DB) (row : TrendRow) : Except String DB :=
  .ok { db with trends := db.trends ++ [row] }

/-- Insert into `content` (`user_id` references `users.id`). -/
def insertContentRow (db : DB) (row : ContentRow) : Except String DB :=
  if db.users.any (fun u => u.id == row.user_id) then
    .ok { db with content := db.content ++ [row] }
  else .error (fkViolation "content")

/-- Insert into `scheduled_posts` (references `users`, `content` and
`platform_accounts`). -/
def insertScheduledPostRow (db : DB) (row : ScheduledPostRow) : Except String DB :=
  if db.users.any (fun u => u.id == row.user_id)
      && db.content.any (fun c => c.id == row.content_id)
      && db.platformAccounts.any (fun a => a.id == row.platform_account_id) then
    .ok { db with scheduledPosts := db.scheduledPosts ++ [row] }
  else .error (fkViolation "scheduled_posts")

/-- Insert into `campaigns` (`user_id` references `users.id`). -/
def insertCampaignRow (db : DB) (row : CampaignRow) : Except String DB :=
  if db.users.any (fun u => u.id == row.user_id) then
    .ok { db with campaigns := db.campaigns ++ [row] }
  else .error (fkViolation "campaigns")

/-- Insert into `campaign_metrics` (`campaign_id` references
`campaigns.id`). -/
def insertCampaignMetricRow (db : DB) (row : CampaignMetricRow) : Except String DB :=
  if db.campaigns.any (fun c => c.id == row.campaign_id) then
    .ok { db with campaignMetrics := db.campaignMetrics ++ [row] }
  else .error (fkViolation "campaign_metrics")

/-- Insert into `workflow_tasks` (`user_id` and `assigned_to` reference
`users.id`; `campaign_id` and `content_id` are nullable references). -/
def insertWorkflowTaskRow (db : DB) (row : WorkflowTaskRow) : Except String DB :=
  if db.users.any (fun u => u.id == row.user_id)
      && (match row.campaign_id with
          | some c => db.campaigns.any (fun k => k.id == c)
          | none => true)
      && (match row.content_id with
          | some c => db.content.any (fun k => k.id == c)
          | none => true)
      && (match row.assigned_to with
          | some a => db.users.any (fun u => u.id == a)
          | none => true) then
    .ok { db with workflowTasks := db.workflowTasks ++ [row] }
  else .error (fkViolation "workflow_tasks")

/-- Insert into `ai_content_requests` (`user_id` references `users.id`). -/
def insertAIContentRequestRow (db : DB) (row : AIContentRequestRow) : Except String DB :=
  if db.users.any (fun u => u.id == row.user_id) then
    .ok { db with aiContentRequests := db.aiContentRequests ++ [row] }
  else .error (fkViolation "ai_content_requests")

/-! ## Handlers -/

/-- `handlers/create_user.ts`: the shipped handler is an explicit placeholder
that resolves a fabricated row with id 1 and touches no table. -/
def createUser (now : Timestamp) (inp : CreateUserInput) (db : DB) : HResult UserRow :=
  ⟨.ok { id := 1, email := inp.email, username := inp.username,
         full_name := inp.full_name, bio := jsOrNullStr inp.bio,
         profile_image_url := jsOrNullStr inp.profile_image_url,
         created_at := now, updated_at := now }, db, []⟩

/-- `getUsers`: all users ordered by `created_at` descending. -/
def getUsers (db : DB) : List UserRow :=
  db.users.mergeSort (fun a b => decide (b.created_at ≤ a.created_at))

/-- `createPlatformAccount`: validate the user exists, then insert with the
defaults of the handler (`is_active` true, counts defaulted to 0). -/
def createPlatformAccount (now : Timestamp) (inp : CreatePlatformAccountInput)
    (db : DB) : HResult PlatformAccountRow :=
  let uid := inp.user_id
  let ops := [DbOp.selectFrom .users]
  if db.users.any (fun u => u.id == uid) then
    let row : PlatformAccountRow :=
      { id := freshId (db.tableIds .platformAccounts), user_id := uid,
        platform := inp.platform, platform_user_id := inp.platform_user_id,
        username := inp.username,
        access_token := jsOrNullStr inp.access_token,
        refresh_token := jsOrNullStr inp.refresh_token,
        token_expires_at := inp.token_expires_at,
        is_active := true,
        followers_count := jsOrNum inp.followers_count 0,
        following_count := jsOrNum inp.following_count 0,
        created_at := now, updated_at := now }
    match insertPlatformAccountRow db row with
    | .ok db2 => ⟨.ok row, db2, ops ++ [DbOp.insertInto .platformAccounts]⟩
    | .error e => ⟨.error e, db, ops ++ [DbOp.insertInto .platformAccounts]⟩
  else
    ⟨.error ("User with id " ++ toString uid ++ " does not exist"), db, ops⟩

/-- `getPlatformAccountsByUser`: validate the user exists, then return the
user's accounts (the handler re-applies `|| null` to the token fields). -/
def getPlatformAccountsByUser (uid : Nat) (db : DB) :
    Except String (List PlatformAccountRow) :=
  if db.users.any (fun u => u.id == uid) then
    .ok ((db.platformAccounts.filter (fun a => a.user_id == uid)).map
      (fun a => { a with access_token := jsOrNullStr a.access_token,
                         refresh_token := jsOrNullStr a.refresh_token }))
  else .error ("User with ID " ++ toString uid ++ " not found")

/-- `handlers/create_trend.ts`: insert the trend with each score stored
through its `numeric(·,2)` column and `detected_at` set to now. -/
def createTrend (now : Timestamp) (inp : CreateTrendInput) (db : DB) :
    HResult TrendRow :=
  let row : TrendRow :=
    { id := freshId (db.tableIds .trends), platform := inp.platform,
      hashtag := inp.hashtag, keyword := jsOrNullStr inp.keyword,
      volume := inp.volume,
      engagement_rate := numericStore 2 inp.engagement_rate,
      sentiment_score := numericStore 2 inp.sentiment_score,
      trending_score := numericStore 2 inp.trending_score,
      detected_at := now, created_at := now }
  match insertTrendRow db row with
  | .ok db2 => ⟨.ok row, db2, [DbOp.insertInto .trends]⟩
  | .error e => ⟨.error e, db, [DbOp.insertInto .trends]⟩

/-- Comparison used by `getTrends`: `ORDER BY trending_score DESC,
detected_at DESC`. -/
def trendLe (a b : TrendRow) : Bool :=
  decide (b.trending_score < a.trending_score ∨
    (a.trending_score = b.trending_score ∧ b.detected_at ≤ a.detected_at))

/-- `handlers/get_trends.ts`: optional platform filter, the score/recency
order above, and `LIMIT` with the TypeScript default argument 50. -/
def getTrends (platform? : Option SocialPlatform) (limit? : Option Nat)
    (db : DB) : List TrendRow :=
  let base :=
    match platform? with
    | some p => db.trends.filter (fun (t : TrendRow) => decide (t.platform = p))
    | none => db.trends
  (base.mergeSort trendLe).take (limit?.getD 50)

/-- `createContent`: validate the user exists, then insert with the
handler's `|| false` / `|| []` defaults. -/
def createContent (now : Timestamp) (inp : CreateContentInput) (db : DB) :
    HResult ContentRow :=
  let uid := inp.user_id
  let ops := [DbOp.selectFrom .users]
  if db.users.any (fun u => u.id == uid) then
    let row : ContentRow :=
      { id := freshId (db.tableIds .content), user_id := uid,
        title := inp.title, description := jsOrNullStr inp.description,
        content_type := inp.content_type,
        ai_generated := inp.ai_generated.getD false,
        script := jsOrNullStr inp.script,
        media_urls := inp.media_urls.getD [],
        hashtags := inp.hashtags.getD [],
        created_at := now, updated_at := now }
    match insertContentRow db row with
    | .ok db2 => ⟨.ok row, db2, ops ++ [DbOp.insertInto .content]⟩
    | .error e => ⟨.error e, db, ops ++ [DbOp.insertInto .content]⟩
  else
    ⟨.error ("User with id " ++ toString uid ++ " does not exist"), db, ops⟩

/-- Options object of `getContentByUser` (`handlers/get_content.ts`). -/
structure GetContentOptions where
  content_type : Option ContentType := none
  ai_generated : Option Bool := none
  limit : Option Nat := none
  offset : Option Nat := none
deriving DecidableEq, Repr

/-- Comparison used by `getContentByUser`: `ORDER BY created_at DESC`. -/
def contentLe (a b : ContentRow) : Bool :=
  decide (b.created_at ≤ a.created_at)

/-- `handlers/get_content.ts`: validate the user exists, filter by owner and
the optional options, order by `created_at` descending, then apply
`options.limit || 20` and `options.offset || 0`. -/
def getContentByUser (uid : Nat) (options : GetContentOptions) (db : DB) :
    Except String (List ContentRow) :=
  if db.users.any (fun u => u.id == uid) then
    let cond := fun (c : ContentRow) =>
      c.user_id == uid
      && (match options.content_type with
          | some ct => decide (c.content_type = ct)
          | none => true)
      && (match options.ai_generated with
          | some b => c.ai_generated == b
          | none => true)
    let lim := jsOrNum options.limit 20
    let off := jsOrNum options.offset 0
    .ok ((((db.content.filter cond).mergeSort contentLe).drop off).take lim)
  else .error ("User with id " ++ toString uid ++ " not found")

/-- `createScheduledPost`: sequential existence and ownership checks on the
user, the content and the platform account, then the insert. -/
def createScheduledPost (now : Timestamp) (inp : CreateScheduledPostInput)
    (db : DB) : HResult ScheduledPostRow :=
  let uid := inp.user_id
  let cid := inp.content_id
  let pid := inp.platform_account_id
  let ops := [DbOp.selectFrom .users]
  if db.users.any (fun u => u.id == uid) then
    let ops := ops ++ [DbOp.selectFrom .content]
    match db.content.find? (fun c => c.id == cid) with
    | none =>
        ⟨.error ("Content with id " ++ toString cid ++ " does not exist"), db, ops⟩
    | some c =>
        if c.user_id ≠ uid then
          ⟨.error ("Content with id " ++ toString cid ++
            " does not belong to user " ++ toString uid), db, ops⟩
        else
          let ops := ops ++ [DbOp.selectFrom .platformAccounts]
          match db.platformAccounts.find? (fun a => a.id == pid) with
          | none =>
              ⟨.error ("Platform account with id " ++ toString pid ++
                " does not exist"), db, ops⟩
          | some a =>
              if a.user_id ≠ uid then
                ⟨.error ("Platform account with id " ++ toString pid ++
                  " does not belong to user " ++ toString uid), db, ops⟩
              else
                let row : ScheduledPostRow :=
                  { id := freshId (db.tableIds .scheduledPosts), user_id := uid,
                    content_id := cid, platform_account_id := pid,
                    scheduled_at := inp.scheduled_at, status := .draft,
                    platform_post_id := none, error_message := none,
                    published_at := none, created_at := now, updated_at := now }
                let ops := ops ++ [DbOp.insertInto .scheduledPosts]
                match insertScheduledPostRow db row with
                | .ok db2 => ⟨.ok row, db2, ops⟩
                | .error e => ⟨.error e, db, ops⟩
  else
    ⟨.error ("User with id " ++ toString uid ++ " does not exist"), db, ops⟩

/-- Comparison used by `getScheduledPostsByUser`: `ORDER BY scheduled_at
DESC`. -/
def postLe (a b : ScheduledPostRow) : Bool :=
  decide (b.scheduled_at ≤ a.scheduled_at)

/-- `getScheduledPostsByUser`: the user's posts, optionally filtered by
status, inner-joined on the referenced content and platform account, ordered
by `scheduled_at` descending. -/
def getScheduledPostsByUser (uid : Nat) (status? : Option PostStatus)
    (db : DB) : List ScheduledPostRow :=
  (db.scheduledPosts.filter (fun p =>
    p.user_id == uid
    && (match status? with
        | some s => decide (p.status = s)
        | none => true)
    && db.content.any (fun c => c.id == p.content_id)
    && db.platformAccounts.any (fun a => a.id == p.platform_account_id))).mergeSort postLe

/-- `createCampaign` (the full implementation shipped alongside the
placeholder): validate the user, then the date range, then insert. -/
def createCampaign (now : Timestamp) (inp : CreateCampaignInput) (db : DB) :
    HResult CampaignRow :=
  let uid := inp.user_id
  let ops := [DbOp.selectFrom .users]
  if db.users.any (fun u => u.id == uid) then
    if (match inp.end_date with
        | some e => decide (inp.start_date ≥ e)
        | none => false) then
      ⟨.error "Start date must be before end date", db, ops⟩
    else
      let row : CampaignRow :=
        { id := freshId (db.tableIds .campaigns), user_id := uid,
          name := inp.name, description := jsOrNullStr inp.description,
          status := .planning, start_date := inp.start_date,
          end_date := inp.end_date,
          budget := inp.budget.map (numericStore 2),
          target_platforms := inp.target_platforms,
          goals := jsOrNullStr inp.goals,
          created_at := now, updated_at := now }
      let ops := ops ++ [DbOp.insertInto .campaigns]
      match insertCampaignRow db row with
      | .ok db2 => ⟨.ok row, db2, ops⟩
      | .error e => ⟨.error e, db, ops⟩
  else
    ⟨.error ("User with id " ++ toString uid ++ " does not exist"), db, ops⟩

/-- `getCampaignsByUser`: the user's campaigns, optionally filtered by
status, in table order (the handler has no `ORDER BY`). -/
def getCampaignsByUser (uid : Nat) (status? : Option CampaignStatus)
    (db : DB) : List CampaignRow :=
  db.campaigns.filter (fun c =>
    c.user_id == uid
    && (match status? with
        | some s => decide (c.status = s)
        | none => true))

/-- `createCampaignMetric` (`src/unnamed/part_008`): no existence check; the
row goes straight to the insert, whose foreign-key constraint is the only
guard on `campaign_id`. -/
def createCampaignMetric (now : Timestamp) (inp : CreateCampaignMetricInput)
    (db : DB) : HResult CampaignMetricRow :=
  let row : CampaignMetricRow :=
    { id := freshId (db.tableIds .campaignMetrics),
      campaign_id := inp.campaign_id, platform := inp.platform,
      metric_name := inp.metric_name,
      metric_value := numericStore 4 inp.metric_value,
      measured_at := inp.measured_at.getD now, created_at := now }
  match insertCampaignMetricRow db row with
  | .ok db2 => ⟨.ok row, db2, [DbOp.insertInto .campaignMetrics]⟩
  | .error e => ⟨.error e, db, [DbOp.insertInto .campaignMetrics]⟩

/-- `handlers/get_campaign_metrics.ts`: the shipped handler is an explicit
placeholder and returns the empty list for every state and filter. -/
def getCampaignMetrics (_campaignId : Nat) (_platform? : Option SocialPlatform)
    (_metricName? : Option String) (_db : DB) : List CampaignMetricRow :=
  []

/-- `handlers/create_workflow_task.ts`: validate the user, then each
provided (truthy) optional reference, then insert. -/
def createWorkflowTask (now : Timestamp) (inp : CreateWorkflowTaskInput)
    (db : DB) : HResult WorkflowTaskRow :=
  let uid := inp.user_id
  let ops := [DbOp.selectFrom .users]
  if db.users.any (fun u => u.id == uid) then
    let ops := ops ++
      (if jsTruthyNat inp.assigned_to then [DbOp.selectFrom .users] else [])
    if jsTruthyNat inp.assigned_to
        && !(db.users.any (fun u => some u.id == inp.assigned_to)) then
      let aid := (inp.assigned_to.getD 0)
      ⟨.error ("Assigned user with id " ++ toString aid ++ " not found"), db, ops⟩
    else
      let ops := ops ++
        (if jsTruthyNat inp.campaign_id then [DbOp.selectFrom .campaigns] else [])
      if jsTruthyNat inp.campaign_id
          && !(db.campaigns.any (fun c => some c.id == inp.campaign_id)) then
        let cid := (inp.campaign_id.getD 0)
        ⟨.error ("Campaign with id " ++ toString cid ++ " not found"), db, ops⟩
      else
        let ops := ops ++
          (if jsTruthyNat inp.content_id then [DbOp.selectFrom .content] else [])
        if jsTruthyNat inp.content_id
            && !(db.content.any (fun c => some c.id == inp.content_id)) then
          let cid := (inp.content_id.getD 0)
          ⟨.error ("Content with id " ++ toString cid ++ " not found"), db, ops⟩
        else
          let row : WorkflowTaskRow :=
            { id := freshId (db.tableIds .workflowTasks), user_id := uid,
              campaign_id := jsOrNullNat inp.campaign_id,
              content_id := jsOrNullNat inp.content_id,
              title := inp.title, description := jsOrNullStr inp.description,
              status := .pending, priority := inp.priority,
              assigned_to := jsOrNullNat inp.assigned_to,
              due_date := inp.due_date, completed_at := none,
              created_at := now, updated_at := now }
          let ops := ops ++ [DbOp.insertInto .workflowTasks]
          match insertWorkflowTaskRow db row with
          | .ok db2 => ⟨.ok row, db2, ops⟩
          | .error e => ⟨.error e, db, ops⟩
  else
    ⟨.error ("User with id " ++ toString uid ++ " not found"), db, ops⟩

/-- `getWorkflowTasksByUser` (`src/unnamed/part_003`): the `assignedToMe`
flag picks the ownership condition; status and priority filters are
intersected with it. -/
def getWorkflowTasksByUser (uid : Nat) (status? : Option WorkflowStatus)
    (priority? : Option PriorityLevel) (assignedToMe? : Option Bool)
    (db : DB) : List WorkflowTaskRow :=
  db.workflowTasks.filter (fun t =>
    (match assignedToMe? with
     | some true => t.assigned_to == some uid
     | some false => t.user_id == uid
     | none => t.user_id == uid || t.assigned_to == some uid)
    && (match status? with
        | some s => decide (t.status = s)
        | none => true)
    && (match priority? with
        | some p => decide (t.priority = p)
        | none => true))

/-- The in-place update performed by `updateWorkflowTaskStatus` on the
matched row. -/
def updTask (now : Timestamp) (status : WorkflowStatus)
    (t : WorkflowTaskRow) : WorkflowTaskRow :=
  { t with
    status := status
    updated_at := now
    completed_at := if status = .completed then some now else none }

/-- `handlers/update_workflow_task.ts`: check the task exists, then
`UPDATE ... WHERE id = taskId` setting status, `updated_at` and
`completed_at`, returning the updated row. (The `none` branch below cannot
occur: the update matched at least the row found by the existence check.) -/
def updateWorkflowTaskStatus (now : Timestamp) (taskId : Nat)
    (status : WorkflowStatus) (db : DB) : HResult WorkflowTaskRow :=
  let ops := [DbOp.selectFrom .workflowTasks]
  if db.workflowTasks.any (fun t => t.id == taskId) then
    let newTasks := db.workflowTasks.map
      (fun t => if t.id == taskId then updTask now status t else t)
    let ops := ops ++ [DbOp.updateOf .workflowTasks]
    match newTasks.find? (fun t => t.id == taskId) with
    | some u => ⟨.ok u, { db with workflowTasks := newTasks }, ops⟩
    | none => ⟨.error "unreachable", { db with workflowTasks := newTasks }, ops⟩
  else
    ⟨.error ("Workflow task with id " ++ toString taskId ++ " not found"), db, ops⟩

/-- `createAIContentRequest`: validate the user, then insert a pending
request. -/
def createAIContentRequest (now : Timestamp)
    (inp : CreateAIContentRequestInput) (db : DB) : HResult AIContentRequestRow :=
  let uid := inp.user_id
  let ops := [DbOp.selectFrom .users]
  if db.users.any (fun u => u.id == uid) then
    let row : AIContentRequestRow :=
      { id := freshId (db.tableIds .aiContentRequests), user_id := uid,
        prompt := inp.prompt, content_type := inp.content_type,
        platform := inp.platform, generated_content := none,
        status := .pending, error_message := none,
        created_at := now, updated_at := now }
    match insertAIContentRequestRow db row with
    | .ok db2 => ⟨.ok row, db2, ops ++ [DbOp.insertInto .aiContentRequests]⟩
    | .error e => ⟨.error e, db, ops ++ [DbOp.insertInto .aiContentRequests]⟩
  else
    ⟨.error ("User with id " ++ toString uid ++ " not found"), db, ops⟩

/-- `getAIContentRequestsByUser`: the user's requests ordered by
`created_at` descending. -/
def getAIContentRequestsByUser (uid : Nat) (db : DB) : List AIContentRequestRow :=
  (db.aiContentRequests.filter (fun r => r.user_id == uid)).mergeSort
    (fun a b => decide (b.created_at ≤ a.created_at))

/-! ## The exposed procedures (`appRouter` of `src/server/src/index.ts`) -/

/-- One call to a procedure of `appRouter`, with its validated input. -/
inductive Proc
  | healthcheck
  | createUser (inp : CreateUserInput)
  | getUsers
  | createPlatformAccount (inp : CreatePlatformAccountInput)
  | getPlatformAccountsByUser (userId : Nat)
  | createTrend (inp : CreateTrendInput)
  | getTrends (platform : Option SocialPlatform) (limit : Option Nat)
  | createContent (inp : CreateContentInput)
  | getContentByUser (userId : Nat)
  | createScheduledPost (inp : CreateScheduledPostInput)
  | getScheduledPostsByUser (userId : Nat) (status : Option PostStatus)
  | createCampaign (inp : CreateCampaignInput)
  | getCampaignsByUser (userId : Nat) (status : Option CampaignStatus)
  | createCampaignMetric (inp : CreateCampaignMetricInput)
  | getCampaignMetrics (campaignId : Nat) (platform : Option SocialPlatform)
      (metricName : Option String)
  | createWorkflowTask (inp : CreateWorkflowTaskInput)
  | getWorkflowTasksByUser (userId : Nat) (status : Option WorkflowStatus)
      (priority : Option PriorityLevel) (assignedToMe : Option Bool)
  | updateWorkflowTaskStatus (taskId : Nat) (status : WorkflowStatus)
  | createAIContentRequest (inp : CreateAIContentRequestInput)
  | getAIContentRequestsByUser (userId : Nat)

/-- The database state after one procedure call. Query procedures only run
`SELECT`s, so they return the state unchanged; each mutation returns the
state produced by its handler. -/
def step (now : Timestamp) (p : Proc) (db : DB) : DB :=
  match p with
  | .healthcheck => db
  | .createUser inp => (createUser now inp db).db
  | .getUsers => db
  | .createPlatformAccount inp => (createPlatformAccount now inp db).db
  | .getPlatformAccountsByUser _ => db
  | .createTrend inp => (createTrend now inp db).db
  | .getTrends _ _ => db
  | .createContent inp => (createContent now inp db).db
  | .getContentByUser _ => db
  | .createScheduledPost inp => (createScheduledPost now inp db).db
  | .getScheduledPostsByUser _ _ => db
  | .createCampaign inp => (createCampaign now inp db).db
  | .getCampaignsByUser _ _ => db
  | .createCampaignMetric inp => (createCampaignMetric now inp db).db
  | .getCampaignMetrics _ _ _ => db
  | .createWorkflowTask inp => (createWorkflowTask now inp db).db
  | .getWorkflowTasksByUser _ _ _ _ => db
  | .updateWorkflowTaskStatus taskId status =>
      (updateWorkflowTaskStatus now taskId status db).db
  | .createAIContentRequest inp => (createAIContentRequest now inp db).db
  | .getAIContentRequestsByUser _ => db

/-! ## General lemmas -/

/-- `l1` is an initial segment of `l2`: rows were only appended. -/
def prefixOf {α : Type} (l1 l2 : List α) : Prop :=
  ∃ t, l2 = l1 ++ t

theorem prefixOf_refl {α : Type} (l : List α) : prefixOf l l :=
  ⟨[], by simp⟩

theorem prefixOf_append {α : Type} (l r : List α) : prefixOf l (l ++ r) :=
  ⟨r, rfl⟩

/-- A `WHERE id = k` membership test succeeds exactly when some row has the
key. -/
theorem anyKeyIff {α : Type} (f : α → Nat) (l : List α) (k : Nat) :
    l.any (fun a => f a == k) = true ↔ ∃ x ∈ l, f x = k := by
  simp [List.any_eq_true]

/-- With distinct keys, `find?` by key returns exactly the row holding the
key. -/
theorem findKeyIff {α : Type} (f : α → Nat) (l : List α)
    (hnd : (l.map f).Nodup) (k : Nat) (x : α) :
    l.find? (fun a => f a == k) = some x ↔ x ∈ l ∧ f x = k := by
  induction l with
  | nil => simp
  | cons a t ih =>
    rw [List.map_cons, List.nodup_cons] at hnd
    by_cases h : f a = k
    · rw [List.find?_cons_of_pos _ (by simpa using h)]
      constructor
      · rintro hx
        injection hx with hx
        exact ⟨hx ▸ List.mem_cons_self a t, hx ▸ h⟩
      · rintro ⟨hmem, hfx⟩
        rcases List.mem_cons.mp hmem with rfl | hmemt
        · rfl
        · exact absurd (hfx.trans h.symm ▸ List.mem_map_of_mem f hmemt) hnd.1
    · rw [List.find?_cons_of_neg _ (by simpa using h)]
      rw [ih hnd.2]
      constructor
      · rintro ⟨hmem, hfx⟩
        exact ⟨List.mem_cons_of_mem a hmem, hfx⟩
      · rintro ⟨hmem, hfx⟩
        rcases List.mem_cons.mp hmem with rfl | hmemt
        · exact absurd hfx h
        · exact ⟨hmemt, hfx⟩

/-- `find?` by key fails exactly when no row has the key. -/
theorem findKeyNone {α : Type} (f : α → Nat) (l : List α) (k : Nat) :
    l.find? (fun a => f a == k) = none ↔ ∀ x ∈ l, f x ≠ k := by
  simp [List.find?_eq_none]

/-- Rounding half away from zero fixes every integer. -/
theorem roundHalfAway_intCast (n : ℤ) : roundHalfAway (n : ℚ) = n := by
  have hfloor : ⌊(n : ℚ) + 1 / 2⌋ = n := by
    rw [Int.floor_int_add]
    norm_num
  have hfloorneg : ⌊(-(n : ℚ)) + 1 / 2⌋ = -n := by
    rw [show (-(n : ℚ)) = ((-n : ℤ) : ℚ) by push_cast; ring, Int.floor_int_add]
    norm_num
  unfold roundHalfAway
  split
  · exact hfloor
  · rw [hfloorneg]
    ring

/-- A value already expressible at the column's scale is stored unchanged. -/
theorem numericStore_exact {s : ℕ} {q : ℚ} (n : ℤ)
    (h : q = (n : ℚ) / ((10 ^ s : ℕ) : ℚ)) : numericStore s q = q := by
  have h10 : ((10 ^ s : ℕ) : ℚ) ≠ 0 := by positivity
  unfold numericStore
  rw [h, div_mul_cancel₀ _ h10, roundHalfAway_intCast]

/-- A `numeric(·,2)` column rounds one eighth up to thirteen hundredths. -/
theorem numericStore_eighth : numericStore 2 (1 / 8 : ℚ) = 13 / 100 := by
  unfold numericStore roundHalfAway
  rw [show (1 / 8 : ℚ) * ((10 ^ 2 : ℕ) : ℚ) = 25 / 2 by norm_num]
  rw [if_pos (by norm_num)]
  rw [show (25 / 2 : ℚ) + 1 / 2 = ((13 : ℤ) : ℚ) by norm_num]
  rw [Int.floor_intCast]
  norm_num

/-- Statements executed up to (and not including) the first `INSERT` include
a `SELECT` on table `t` — the shape of an explicit foreign-key existence
check. -/
def selectsBeforeInsert (ops : List DbOp) (t : TableName) : Bool :=
  (ops.takeWhile (fun o => match o with
    | .insertInto _ => false
    | _ => true)).any (fun o => o == DbOp.selectFrom t)

theorem selectsBeforeInsert_head (t : TableName) (rest : List DbOp) :
    selectsBeforeInsert (DbOp.selectFrom t :: rest) t = true := by
  simp [selectsBeforeInsert, List.takeWhile_cons]

/-! ## Concrete fixtures -/

/-- A stored user with id 1. -/
def u1 : UserRow :=
  { id := 1, email := "alice@example.com", username := "alice",
    full_name := "Alice", bio := none, profile_image_url := none,
    created_at := 0, updated_at := 0 }

/-- A stored campaign with id 1 owned by user 1. -/
def camp1 : CampaignRow :=
  { id := 1, user_id := 1, name := "Launch", description := none,
    status := .planning, start_date := 0, end_date := none, budget := none,
    target_platforms := [.instagram], goals := none,
    created_at := 0, updated_at := 0 }

/-- A database holding exactly user 1 and campaign 1. -/
def dbUC : DB :=
  { DB.empty with users := [u1], campaigns := [camp1] }

/-! ## C1 -/

/-- Metric input for campaign 1. -/
def inpC1 : CreateCampaignMetricInput :=
  { campaign_id := 1, platform := .instagram, metric_name := "impressions",
    metric_value := 15000, measured_at := some 100 }

/-- C1: the claimed create/get round trip fails on the shipped code. On a
database holding campaign 1, `createCampaignMetric` succeeds and stores the
metric (its value 15000 correctly round-tripped through the numeric column),
but `getCampaignMetrics` for campaign 1 with no platform or metric-name
filter returns the empty list: the shipped `getCampaignMetrics` is a
placeholder that never returns stored metrics, contradicting the
repository's own tests for it. -/
theorem c1_metric_stored_but_get_returns_nothing :
    ∃ m : CampaignMetricRow,
      (createCampaignMetric 200 inpC1 dbUC).res = .ok m ∧
      m ∈ (createCampaignMetric 200 inpC1 dbUC).db.campaignMetrics ∧
      m.campaign_id = 1 ∧ m.metric_value = 15000 ∧
      getCampaignMetrics 1 none none (createCampaignMetric 200 inpC1 dbUC).db = [] := by
  refine ⟨_, rfl, ?_, rfl, ?_, rfl⟩
  · simp [createCampaignMetric, insertCampaignMetricRow, dbUC, camp1, DB.empty, inpC1]
  · show numericStore 4 (15000 : ℚ) = (15000 : ℚ)
    exact numericStore_exact 150000000 (by norm_num)

/-! ## C4 -/

/-- Metric input whose campaign id matches no stored campaign. -/
def inpC4 : CreateCampaignMetricInput :=
  { campaign_id := 99999, platform := .instagram, metric_name := "impressions",
    metric_value := 15000, measured_at := some 0 }

/-- C4 counterexample: `createCampaignMetric` performs no foreign-key
existence check before its insert. On the empty database, at a campaign id
that does not exist, the only statement it issues is the `INSERT` itself —
no preceding `SELECT` on campaigns (or any table) — and the error raised is
the foreign-key constraint violation produced by that insert (which the
repository's test matches with `/violates foreign key constraint/i`), not a
handler existence-check message. -/
theorem c4_createCampaignMetric_no_precheck :
    (createCampaignMetric 0 inpC4 DB.empty).ops = [DbOp.insertInto .campaignMetrics] ∧
    selectsBeforeInsert (createCampaignMetric 0 inpC4 DB.empty).ops .campaigns = false ∧
    (createCampaignMetric 0 inpC4 DB.empty).res = .error (fkViolation "campaign_metrics") ∧
    (createCampaignMetric 0 inpC4 DB.empty).db = DB.empty := by
  exact ⟨rfl, rfl, rfl, rfl⟩

/-- C4 (amended): every create handler that performs an explicit existence
check (`createScheduledPost`, `createCampaign`, `createContent`,
`createPlatformAccount`, `createWorkflowTask`, `createAIContentRequest`)
issues a `SELECT` on the referenced `users` table before any `INSERT`;
`createCampaignMetric` performs no pre-insert check at all, and for every
input whose campaign id identifies no stored campaign it fails with the
foreign-key constraint violation of its lone `INSERT`, storing no row and
leaving the database unchanged. -/
theorem c4_fk_existence_checks (now : Timestamp) (db : DB) :
    (∀ inp, selectsBeforeInsert (createScheduledPost now inp db).ops .users = true) ∧
    (∀ inp, selectsBeforeInsert (createCampaign now inp db).ops .users = true) ∧
    (∀ inp, selectsBeforeInsert (createContent now inp db).ops .users = true) ∧
    (∀ inp, selectsBeforeInsert (createPlatformAccount now inp db).ops .users = true) ∧
    (∀ inp, selectsBeforeInsert (createWorkflowTask now inp db).ops .users = true) ∧
    (∀ inp, selectsBeforeInsert (createAIContentRequest now inp db).ops .users = true) ∧
    (∀ inp : CreateCampaignMetricInput,
      (∀ c ∈ db.campaigns, c.id ≠ inp.campaign_id) →
        (createCampaignMetric now inp db).ops = [DbOp.insertInto .campaignMetrics] ∧
        (createCampaignMetric now inp db).res = .error (fkViolation "campaign_metrics") ∧
        (createCampaignMetric now inp db).db = db) := by
  refine ⟨fun inp => ?_, fun inp => ?_, fun inp => ?_, fun inp => ?_,
    fun inp => ?_, fun inp => ?_, fun inp h => ?_⟩
  · unfold createScheduledPost
    dsimp only
    repeat' split
    all_goals exact selectsBeforeInsert_head _ _
  · unfold createCampaign
    dsimp only
    repeat' split
    all_goals exact selectsBeforeInsert_head _ _
  · unfold createContent
    dsimp only
    repeat' split
    all_goals exact selectsBeforeInsert_head _ _
  · unfold createPlatformAccount
    dsimp only
    repeat' split
    all_goals exact selectsBeforeInsert_head _ _
  · unfold createWorkflowTask
    dsimp only
    repeat' split
    all_goals exact selectsBeforeInsert_head _ _
  · unfold createAIContentRequest
    dsimp only
    repeat' split
    all_goals exact selectsBeforeInsert_head _ _
  · have hany : db.campaigns.any (fun c => c.id == inp.campaign_id) = false := by
      rw [← Bool.not_eq_true, anyKeyIff]
      push_neg
      exact h
    unfold createCampaignMetric insertCampaignMetricRow
    dsimp only
    rw [hany]
    exact ⟨rfl, rfl, rfl⟩

/-- Scheduled-post input used by the C4 witness. -/
def inpSPw : CreateScheduledPostInput :=
  { user_id := 1, content_id := 1, platform_account_id := 1, scheduled_at := 9 }

/-- C4 witness: the amended statement instantiated on the empty database. -/
theorem c4_fk_existence_checks_witness :
    selectsBeforeInsert (createScheduledPost 0 inpSPw DB.empty).ops .users = true ∧
    (createCampaignMetric 0 inpC4 DB.empty).res = .error (fkViolation "campaign_metrics") :=
  ⟨(c4_fk_existence_checks 0 DB.empty).1 inpSPw,
   ((c4_fk_existence_checks 0 DB.empty).2.2.2.2.2.2 inpC4
      (by simp [DB.empty])).2.1⟩

/-! ## C6 -/

/-- Valid trend input whose engagement rate 0.125 needs three decimals. -/
def inpC6 : CreateTrendInput :=
  { platform := .tiktok, hashtag := "#dance", keyword := none, volume := 10,
    engagement_rate := 1 / 8, sentiment_score := 0, trending_score := 50 }

/-- C6 counterexample: for the valid input with engagement_rate 0.125 the
trend returned by `createTrend` carries engagement_rate 0.13 — the
`numeric(5,2)` column rounds to two decimals, so the conversion does not
round-trip every valid input value. -/
theorem c6_not_roundtrip :
    validCreateTrendInput inpC6 ∧
    ∃ m, (createTrend 7 inpC6 DB.empty).res = .ok m ∧
      m.engagement_rate ≠ inpC6.engagement_rate ∧
      m.engagement_rate = 13 / 100 := by
  refine ⟨?_, _, rfl, ?_, ?_⟩
  · unfold validCreateTrendInput inpC6
    norm_num
  · show numericStore 2 inpC6.engagement_rate ≠ inpC6.engagement_rate
    show numericStore 2 (1 / 8 : ℚ) ≠ (1 / 8 : ℚ)
    rw [numericStore_eighth]
    norm_num
  · show numericStore 2 (1 / 8 : ℚ) = 13 / 100
    exact numericStore_eighth

/-- C6 (amended): `createTrend` round-trips exactly the score values already
expressible at scale 2 (integer multiples of 0.01): for every such input the
returned trend carries the input's engagement_rate, sentiment_score and
trending_score unchanged, and the stored row equals the returned one. -/
theorem c6_roundtrip_scale2 (now : Timestamp) (inp : CreateTrendInput)
    (db : DB) (ne ns nt : ℤ)
    (he : inp.engagement_rate = (ne : ℚ) / ((10 ^ 2 : ℕ) : ℚ))
    (hs : inp.sentiment_score = (ns : ℚ) / ((10 ^ 2 : ℕ) : ℚ))
    (ht : inp.trending_score = (nt : ℚ) / ((10 ^ 2 : ℕ) : ℚ)) :
    ∃ m, (createTrend now inp db).res = .ok m ∧
      m.engagement_rate = inp.engagement_rate ∧
      m.sentiment_score = inp.sentiment_score ∧
      m.trending_score = inp.trending_score ∧
      (createTrend now inp db).db.trends = db.trends ++ [m] :=
  ⟨_, rfl, numericStore_exact ne he, numericStore_exact ns hs,
   numericStore_exact nt ht, rfl⟩

/-- Trend input with two-decimal scores, for the C6 witness. -/
def inpC6w : CreateTrendInput :=
  { platform := .instagram, hashtag := "#verified", keyword := none,
    volume := 3, engagement_rate := 1575 / 100, sentiment_score := -1 / 4,
    trending_score := 92 }

/-- C6 witness: the amended round trip at the concrete input 15.75 / -0.25 /
92. -/
theorem c6_roundtrip_scale2_witness :
    ∃ m, (createTrend 1 inpC6w DB.empty).res = .ok m ∧
      m.engagement_rate = inpC6w.engagement_rate ∧
      m.sentiment_score = inpC6w.sentiment_score ∧
      m.trending_score = inpC6w.trending_score ∧
      (createTrend 1 inpC6w DB.empty).db.trends = DB.empty.trends ++ [m] :=
  c6_roundtrip_scale2 1 inpC6w DB.empty 1575 (-25) 9200
    (by unfold inpC6w; norm_num)
    (by unfold inpC6w; norm_num)
    (by unfold inpC6w; norm_num)

/-! ## C2 -/

/-- Campaign input with equal start and end dates, referencing user 1. -/
def inpC2 : CreateCampaignInput :=
  { user_id := 1, name := "Spring push", start_date := 5, end_date := some 5,
    target_platforms := [.tiktok] }

/-- C2 counterexample: the date-ordering error is not raised for every input
whose start date fails to precede its end date — the user-existence check
runs first. On the empty database, `createCampaign` with start = end raises
the user-existence message instead of "Start date must be before end
date". -/
theorem c2_user_check_precedes_date_check :
    inpC2.end_date = some 5 ∧ inpC2.start_date ≥ 5 ∧
    (createCampaign 0 inpC2 DB.empty).res = .error "User with id 1 does not exist" ∧
    ("User with id 1 does not exist" : String) ≠ "Start date must be before end date" := by
  exact ⟨rfl, by norm_num [inpC2], rfl, by decide⟩

/-- C2 (amended): given that the referenced user exists — the handler checks
the user first — the date rule is as claimed: when `end_date` is present and
`start_date` is not strictly before it, `createCampaign` raises exactly
"Start date must be before end date" and leaves the database unchanged; when
`end_date` is absent, no ordering check applies and the campaign row is
inserted. -/
theorem c2_createCampaign_date_check (now : Timestamp)
    (inp : CreateCampaignInput) (db : DB)
    (hu : ∃ u ∈ db.users, u.id = inp.user_id) :
    (∀ e, inp.end_date = some e → inp.start_date ≥ e →
      (createCampaign now inp db).res = .error "Start date must be before end date" ∧
      (createCampaign now inp db).db = db) ∧
    (inp.end_date = none →
      ∃ m, (createCampaign now inp db).res = .ok m ∧
        (createCampaign now inp db).db = { db with campaigns := db.campaigns ++ [m] }) := by
  have hany : db.users.any (fun u => u.id == inp.user_id) = true :=
    (anyKeyIff (fun u => u.id) db.users inp.user_id).mpr hu
  constructor
  · rintro e he hge
    constructor
    · unfold createCampaign
      dsimp only
      rw [hany, he]
      simp [hge]
    · unfold createCampaign
      dsimp only
      rw [hany, he]
      simp [hge]
  · intro hnone
    unfold createCampaign insertCampaignRow
    dsimp only
    rw [hany, hnone]
    simp only [if_true]
    exact ⟨_, rfl, rfl⟩

/-- Campaign input with no end date, for the C2 witness. -/
def inpC2w : CreateCampaignInput :=
  { user_id := 1, name := "Open-ended", start_date := 5, end_date := none,
    target_platforms := [.instagram] }

/-- C2 witness: on the database holding user 1, the open-ended campaign is
created and appended. -/
theorem c2_createCampaign_date_check_witness :
    ∃ m, (createCampaign 3 inpC2w dbUC).res = .ok m ∧
      (createCampaign 3 inpC2w dbUC).db = { dbUC with campaigns := dbUC.campaigns ++ [m] } :=
  (c2_createCampaign_date_check 3 inpC2w dbUC
    ⟨u1, by simp [dbUC, DB.empty], rfl⟩).2 rfl

/-! ## C3 -/

/-- C3: on a state with distinct content and platform-account ids (their
serial primary keys), `createScheduledPost` succeeds if and only if the user
exists, the content exists and belongs to that user, and the platform
account exists and belongs to that user; on success exactly the new post row
is appended, and in every failing case an error is raised and the database
is unchanged. -/
theorem c3_createScheduledPost_checks (now : Timestamp)
    (inp : CreateScheduledPostInput) (db : DB)
    (hcnd : (db.content.map (fun c => c.id)).Nodup)
    (hpnd : (db.platformAccounts.map (fun a => a.id)).Nodup) :
    ((∃ m, (createScheduledPost now inp db).res = .ok m) ↔
      ((∃ u ∈ db.users, u.id = inp.user_id) ∧
       (∃ c ∈ db.content, c.id = inp.content_id ∧ c.user_id = inp.user_id) ∧
       (∃ a ∈ db.platformAccounts,
          a.id = inp.platform_account_id ∧ a.user_id = inp.user_id))) ∧
    (∀ m, (createScheduledPost now inp db).res = .ok m →
      (createScheduledPost now inp db).db =
        { db with scheduledPosts := db.scheduledPosts ++ [m] }) ∧
    (∀ e, (createScheduledPost now inp db).res = .error e →
      (createScheduledPost now inp db).db = db) := by
  unfold createScheduledPost
  dsimp only
  by_cases hu : (db.users.any fun u => u.id == inp.user_id) = true
  case neg =>
    rw [if_neg hu]
    refine ⟨⟨fun h => ?_, fun h => ?_⟩, fun m hm => by simp at hm, fun e he => rfl⟩
    · obtain ⟨m, hm⟩ := h
      simp at hm
    · exact absurd ((anyKeyIff (fun u => u.id) db.users inp.user_id).mpr h.1) hu
  case pos =>
    rw [if_pos hu]
    have husers : ∃ u ∈ db.users, u.id = inp.user_id :=
      (anyKeyIff (fun u => u.id) db.users inp.user_id).mp hu
    cases hfc : db.content.find? (fun c => c.id == inp.content_id) with
    | none =>
      dsimp only
      refine ⟨⟨fun h => ?_, fun h => ?_⟩, fun m hm => by simp at hm, fun e he => rfl⟩
      · obtain ⟨m, hm⟩ := h
        simp at hm
      · obtain ⟨c, hcmem, hcid, _⟩ := h.2.1
        exact absurd hcid ((findKeyNone (fun c => c.id) db.content inp.content_id).mp hfc c hcmem)
    | some c =>
      dsimp only
      have hcmem : c ∈ db.content := List.mem_of_find?_eq_some hfc
      have hcid : c.id = inp.content_id := by simpa using List.find?_some hfc
      by_cases hcu : c.user_id = inp.user_id
      case neg =>
        rw [if_pos hcu]
        refine ⟨⟨fun h => ?_, fun h => ?_⟩, fun m hm => by simp at hm, fun e he => rfl⟩
        · obtain ⟨m, hm⟩ := h
          simp at hm
        · obtain ⟨c', hc'mem, hc'id, hc'u⟩ := h.2.1
          have : c' = c := by
            have hfind := (findKeyIff (fun c => c.id) db.content hcnd inp.content_id c').mpr
              ⟨hc'mem, hc'id⟩
            rw [hfc] at hfind
            injection hfind with h
            exact h.symm
          exact absurd (this ▸ hc'u) hcu
      case pos =>
        rw [if_neg (by simpa using hcu)]
        cases hfa : db.platformAccounts.find? (fun a => a.id == inp.platform_account_id) with
        | none =>
          dsimp only
          refine ⟨⟨fun h => ?_, fun h => ?_⟩, fun m hm => by simp at hm, fun e he => rfl⟩
          · obtain ⟨m, hm⟩ := h
            simp at hm
          · obtain ⟨a, hamem, haid, _⟩ := h.2.2
            exact absurd haid
              ((findKeyNone (fun a => a.id) db.platformAccounts inp.platform_account_id).mp hfa a hamem)
        | some a =>
          dsimp only
          have hamem : a ∈ db.platformAccounts := List.mem_of_find?_eq_some hfa
          have haid : a.id = inp.platform_account_id := by simpa using List.find?_some hfa
          by_cases hau : a.user_id = inp.user_id
          case neg =>
            rw [if_pos hau]
            refine ⟨⟨fun h => ?_, fun h => ?_⟩, fun m hm => by simp at hm, fun e he => rfl⟩
            · obtain ⟨m, hm⟩ := h
              simp at hm
            · obtain ⟨a', ha'mem, ha'id, ha'u⟩ := h.2.2
              have : a' = a := by
                have hfind := (findKeyIff (fun a => a.id) db.platformAccounts hpnd
                  inp.platform_account_id a').mpr ⟨ha'mem, ha'id⟩
                rw [hfa] at hfind
                injection hfind with h
                exact h.symm
              exact absurd (this ▸ ha'u) hau
          case pos =>
            rw [if_neg (by simpa using hau)]
            unfold insertScheduledPostRow
            dsimp only
            have hins : (db.users.any (fun u => u.id == inp.user_id)
                && db.content.any (fun k => k.id == inp.content_id)
                && db.platformAccounts.any (fun k => k.id == inp.platform_account_id)) = true := by
              rw [Bool.and_eq_true, Bool.and_eq_true]
              exact ⟨⟨hu, (anyKeyIff (fun k => k.id) db.content inp.content_id).mpr
                  ⟨c, hcmem, hcid⟩⟩,
                (anyKeyIff (fun k => k.id) db.platformAccounts inp.platform_account_id).mpr
                  ⟨a, hamem, haid⟩⟩
            rw [hins, if_pos rfl]
            refine ⟨⟨fun _ => ⟨husers, ⟨c, hcmem, hcid, hcu⟩, ⟨a, hamem, haid, hau⟩⟩,
              fun _ => ⟨_, rfl⟩⟩, fun m hm => ?_, fun e he => by simp at he⟩
            injection hm with hm
            rw [← hm]

/-- A stored content row with id 1 owned by user 1. -/
def cont1 : ContentRow :=
  { id := 1, user_id := 1, title := "Reel", description := none,
    content_type := .reel, ai_generated := false, script := none,
    media_urls := [], hashtags := [], created_at := 0, updated_at := 0 }

/-- A stored platform account with id 1 owned by user 1. -/
def pa1 : PlatformAccountRow :=
  { id := 1, user_id := 1, platform := .instagram, platform_user_id := "ig1",
    username := "alice", access_token := none, refresh_token := none,
    token_expires_at := none, is_active := true, followers_count := 0,
    following_count := 0, created_at := 0, updated_at := 0 }

/-- A database holding user 1, content 1, platform account 1 and
campaign 1. -/
def dbFull : DB :=
  { DB.empty with
    users := [u1]
    content := [cont1]
    platformAccounts := [pa1]
    campaigns := [camp1] }

/-- C3 witness: with user 1, content 1 and platform account 1 all present
and owned consistently, the scheduled post is created and appended. -/
theorem c3_createScheduledPost_checks_witness :
    (∃ m, (createScheduledPost 9 inpSPw dbFull).res = .ok m) ∧
    ∀ m, (createScheduledPost 9 inpSPw dbFull).res = .ok m →
      (createScheduledPost 9 inpSPw dbFull).db =
        { dbFull with scheduledPosts := dbFull.scheduledPosts ++ [m] } := by
  have h := c3_createScheduledPost_checks 9 inpSPw dbFull (by decide) (by decide)
  exact ⟨h.1.mpr ⟨⟨u1, by simp [dbFull, DB.empty], rfl⟩,
    ⟨cont1, by simp [dbFull, DB.empty], rfl, rfl⟩,
    ⟨pa1, by simp [dbFull, DB.empty], rfl, rfl⟩⟩, h.2.1⟩

/-! ## C5 -/

/-- The `getTrends` comparison is transitive. -/
theorem trendLe_trans (a b c : TrendRow) (hab : trendLe a b = true)
    (hbc : trendLe b c = true) : trendLe a c = true := by
  simp only [trendLe, decide_eq_true_eq] at hab hbc ⊢
  rcases hab with h1 | ⟨h1, h1d⟩ <;> rcases hbc with h2 | ⟨h2, h2d⟩
  · exact Or.inl (h2.trans h1)
  · exact Or.inl (by rw [← h2]; exact h1)
  · exact Or.inl (by rw [h1]; exact h2)
  · exact Or.inr ⟨h1.trans h2, h2d.trans h1d⟩

/-- The `getTrends` comparison is total. -/
theorem trendLe_total (a b : TrendRow) :
    (trendLe a b || trendLe b a) = true := by
  simp only [trendLe, Bool.or_eq_true, decide_eq_true_eq]
  rcases lt_trichotomy a.trending_score b.trending_score with h | h | h
  · exact Or.inr (Or.inl h)
  · rcases le_total b.detected_at a.detected_at with hd | hd
    · exact Or.inl (Or.inr ⟨h, hd⟩)
    · exact Or.inr (Or.inr ⟨h.symm, hd⟩)
  · exact Or.inl (Or.inl h)

/-- C5: `getTrends` returns at most `limit` trends (50 when the limit is
omitted), all drawn from the stored trends and restricted to the given
platform when one is supplied, ordered by trending_score descending with
ties broken by detected_at descending. -/
theorem c5_getTrends_spec (platform? : Option SocialPlatform)
    (limit? : Option Nat) (db : DB) :
    (getTrends platform? limit? db).length ≤ limit?.getD 50 ∧
    (∀ t ∈ getTrends platform? limit? db,
      t ∈ db.trends ∧ ∀ p, platform? = some p → t.platform = p) ∧
    (getTrends platform? limit? db).Pairwise (fun a b =>
      b.trending_score < a.trending_score ∨
      (a.trending_score = b.trending_score ∧ b.detected_at ≤ a.detected_at)) ∧
    getTrends platform? none db = getTrends platform? (some 50) db := by
  refine ⟨?_, ?_, ?_, rfl⟩
  · unfold getTrends
    exact List.length_take_le _ _
  · intro t ht
    unfold getTrends at ht
    have hmem := (List.mergeSort_perm _ trendLe).mem_iff.mp (List.mem_of_mem_take ht)
    cases hplat : platform? with
    | none =>
      rw [hplat] at hmem
      exact ⟨hmem, fun p hp => Option.noConfusion hp⟩
    | some q =>
      rw [hplat] at hmem
      obtain ⟨hmem2, hpred⟩ := List.mem_filter.mp hmem
      refine ⟨hmem2, fun p hp => ?_⟩
      injection hp with hp
      rw [← hp]
      simpa using hpred
  · unfold getTrends
    have hs := List.sorted_mergeSort
      (fun a b c => trendLe_trans a b c)
      (fun a b => trendLe_total a b)
      (match platform? with
       | some p => db.trends.filter (fun (t : TrendRow) => decide (t.platform = p))
       | none => db.trends)
    have hp := List.Pairwise.sublist (List.take_sublist (limit?.getD 50) _) hs
    exact hp.imp (fun h => by simpa [trendLe, decide_eq_true_eq] using h)

/-- A stored trend on tiktok. -/
def t1 : TrendRow :=
  { id := 1, platform := .tiktok, hashtag := "#x", keyword := none,
    volume := 5, engagement_rate := 1, sentiment_score := 0,
    trending_score := 2, detected_at := 4, created_at := 4 }

/-- A database holding exactly trend 1. -/
def dbT : DB :=
  { DB.empty with trends := [t1] }

/-- C5 witness: on the one-trend database, the tiktok query with no limit
evaluates to that trend and satisfies the default bound. -/
theorem c5_getTrends_spec_witness :
    getTrends (some .tiktok) none dbT = [t1] ∧
    (getTrends (some .tiktok) none dbT).length ≤ 50 :=
  ⟨by simp [getTrends, dbT, t1, DB.empty, List.mergeSort_singleton],
   (c5_getTrends_spec (some .tiktok) none dbT).1⟩

/-! ## C7 -/

/-- Every table other than `workflow_tasks` agrees between the two states. -/
def sameExceptTasks (db db' : DB) : Prop :=
  db'.users = db.users ∧ db'.platformAccounts = db.platformAccounts ∧
  db'.trends = db.trends ∧ db'.content = db.content ∧
  db'.scheduledPosts = db.scheduledPosts ∧ db'.campaigns = db.campaigns ∧
  db'.campaignMetrics = db.campaignMetrics ∧
  db'.aiContentRequests = db.aiContentRequests

/-- Shape of `updateWorkflowTaskStatus` on any state: no other table is
touched, task ids are preserved, rows with a different id are untouched,
and — when the ids are distinct and the task exists — exactly the matched
row is replaced by its update and returned. -/
theorem updateShape (now : Timestamp) (taskId : Nat)
    (status : WorkflowStatus) (db : DB) :
    sameExceptTasks db (updateWorkflowTaskStatus now taskId status db).db ∧
    (updateWorkflowTaskStatus now taskId status db).db.workflowTasks.map
        (fun t => t.id) = db.workflowTasks.map (fun t => t.id) ∧
    (∀ t ∈ db.workflowTasks, t.id ≠ taskId →
      t ∈ (updateWorkflowTaskStatus now taskId status db).db.workflowTasks) ∧
    ((db.workflowTasks.map (fun t => t.id)).Nodup →
      ∀ t0 ∈ db.workflowTasks, t0.id = taskId →
        ∃ l1 l2, db.workflowTasks = l1 ++ t0 :: l2 ∧
          (updateWorkflowTaskStatus now taskId status db).db.workflowTasks =
            l1 ++ updTask now status t0 :: l2 ∧
          (updateWorkflowTaskStatus now taskId status db).res =
            .ok (updTask now status t0)) := by
  unfold updateWorkflowTaskStatus
  dsimp only
  by_cases hany : (db.workflowTasks.any fun t => t.id == taskId) = true
  case neg =>
    rw [if_neg hany]
    refine ⟨⟨rfl, rfl, rfl, rfl, rfl, rfl, rfl, rfl⟩, rfl,
      fun t ht _ => ht, fun _ t0 ht0 hid => ?_⟩
    exact absurd ((anyKeyIff (fun t => t.id) db.workflowTasks taskId).mpr
      ⟨t0, ht0, hid⟩) hany
  case pos =>
    rw [if_pos hany]
    have hids : (db.workflowTasks.map
        (fun t => if t.id == taskId then updTask now status t else t)).map
        (fun t => t.id) = db.workflowTasks.map (fun t => t.id) := by
      rw [List.map_map]
      apply List.map_congr_left
      intro t _
      dsimp only [Function.comp]
      by_cases h : (t.id == taskId) = true
      · rw [if_pos h]
        rfl
      · rw [if_neg h]
    have hmem : ∀ t ∈ db.workflowTasks, t.id ≠ taskId →
        t ∈ db.workflowTasks.map
          (fun t => if t.id == taskId then updTask now status t else t) := by
      intro t ht hne
      have hft : (if (t.id == taskId) = true then updTask now status t else t) = t := by
        rw [if_neg (by simpa using hne)]
      have hin : (if (t.id == taskId) = true then updTask now status t else t) ∈
          db.workflowTasks.map
            (fun t => if (t.id == taskId) = true then updTask now status t else t) :=
        List.mem_map_of_mem _ ht
      rwa [hft] at hin
    have hdecomp : (db.workflowTasks.map (fun t => t.id)).Nodup →
        ∀ t0 ∈ db.workflowTasks, t0.id = taskId →
          ∃ l1 l2, db.workflowTasks = l1 ++ t0 :: l2 ∧
            db.workflowTasks.map
              (fun t => if t.id == taskId then updTask now status t else t) =
              l1 ++ updTask now status t0 :: l2 ∧
            (db.workflowTasks.map
              (fun t => if t.id == taskId then updTask now status t else t)).find?
              (fun t => t.id == taskId) = some (updTask now status t0) := by
      intro hnd t0 ht0 hid
      obtain ⟨l1, l2, hsplit⟩ := List.append_of_mem ht0
      have hnd' := hsplit ▸ hnd
      rw [List.map_append, List.map_cons, List.nodup_append] at hnd'
      obtain ⟨hnd1, hnd2, hdisj⟩ := hnd'
      rw [List.nodup_cons] at hnd2
      have h1 : ∀ x ∈ l1, x.id ≠ taskId := by
        intro x hx hcontra
        exact hdisj (List.mem_map_of_mem _ hx)
          (hcontra.trans hid.symm ▸ List.mem_cons_self _ _)
      have h2 : ∀ x ∈ l2, x.id ≠ taskId := by
        intro x hx hcontra
        exact hnd2.1 (hid ▸ hcontra ▸ List.mem_map_of_mem (fun t => t.id) hx)
      have hmapl1 : l1.map
          (fun t => if (t.id == taskId) = true then updTask now status t else t) = l1 := by
        rw [show l1.map (fun t => if (t.id == taskId) = true then updTask now status t else t)
            = l1.map id from List.map_congr_left
            (fun x hx => by rw [if_neg (by simpa using h1 x hx)]; rfl), List.map_id]
      have hmapl2 : l2.map
          (fun t => if (t.id == taskId) = true then updTask now status t else t) = l2 := by
        rw [show l2.map (fun t => if (t.id == taskId) = true then updTask now status t else t)
            = l2.map id from List.map_congr_left
            (fun x hx => by rw [if_neg (by simpa using h2 x hx)]; rfl), List.map_id]
      refine ⟨l1, l2, hsplit, ?_, ?_⟩
      · rw [hsplit, List.map_append, List.map_cons, hmapl1, hmapl2,
          if_pos (by simpa using hid)]
      · rw [hsplit, List.map_append, List.map_cons, hmapl1, hmapl2,
          if_pos (by simpa using hid)]
        rw [List.find?_append]
        have hnone : l1.find? (fun t => t.id == taskId) = none :=
          (findKeyNone (fun t => t.id) l1 taskId).mpr h1
        rw [hnone]
        have hpred : ((updTask now status t0).id == taskId) = true := by
          simpa using hid
        exact @List.find?_cons_of_pos _ (fun t => t.id == taskId)
          (updTask now status t0) l2 hpred
    cases hfind : (db.workflowTasks.map
        (fun t => if t.id == taskId then updTask now status t else t)).find?
        (fun t => t.id == taskId) with
    | some u =>
      refine ⟨⟨rfl, rfl, rfl, rfl, rfl, rfl, rfl, rfl⟩, hids, hmem,
        fun hnd t0 ht0 hid => ?_⟩
      obtain ⟨l1, l2, hs1, hs2, hf⟩ := hdecomp hnd t0 ht0 hid
      rw [hfind] at hf
      injection hf with hf
      exact ⟨l1, l2, hs1, hs2, by rw [← hf]⟩
    | none =>
      refine ⟨⟨rfl, rfl, rfl, rfl, rfl, rfl, rfl, rfl⟩, hids, hmem,
        fun hnd t0 ht0 hid => ?_⟩
      obtain ⟨l1, l2, hs1, hs2, hf⟩ := hdecomp hnd t0 ht0 hid
      rw [hfind] at hf
      cases hf

/-- C7: for an existing workflow task (under the distinct serial primary
keys), `updateWorkflowTaskStatus` returns the task updated in place:
`status` set, `completed_at` set to now exactly when the new status is
'completed' and cleared otherwise, `updated_at` refreshed, every other field
of the row unchanged, every other row untouched, and every other table
untouched. -/
theorem c7_updateWorkflowTaskStatus (now : Timestamp) (taskId : Nat)
    (status : WorkflowStatus) (db : DB) (t0 : WorkflowTaskRow)
    (hnd : (db.workflowTasks.map (fun t => t.id)).Nodup)
    (ht0 : t0 ∈ db.workflowTasks) (hid : t0.id = taskId) :
    (updateWorkflowTaskStatus now taskId status db).res =
      .ok (updTask now status t0) ∧
    (updTask now status t0).status = status ∧
    (updTask now status t0).completed_at =
      (if status = .completed then some now else none) ∧
    (updTask now status t0).updated_at = now ∧
    (updTask now status t0).id = t0.id ∧
    (updTask now status t0).user_id = t0.user_id ∧
    (updTask now status t0).campaign_id = t0.campaign_id ∧
    (updTask now status t0).content_id = t0.content_id ∧
    (updTask now status t0).title = t0.title ∧
    (updTask now status t0).description = t0.description ∧
    (updTask now status t0).priority = t0.priority ∧
    (updTask now status t0).assigned_to = t0.assigned_to ∧
    (updTask now status t0).due_date = t0.due_date ∧
    (updTask now status t0).created_at = t0.created_at ∧
    (∃ l1 l2, db.workflowTasks = l1 ++ t0 :: l2 ∧
      (updateWorkflowTaskStatus now taskId status db).db.workflowTasks =
        l1 ++ updTask now status t0 :: l2) ∧
    sameExceptTasks db (updateWorkflowTaskStatus now taskId status db).db := by
  have h := updateShape now taskId status db
  obtain ⟨l1, l2, hs1, hs2, hres⟩ := h.2.2.2 hnd t0 ht0 hid
  exact ⟨hres, rfl, rfl, rfl, rfl, rfl, rfl, rfl, rfl, rfl, rfl, rfl, rfl, rfl,
    ⟨l1, l2, hs1, hs2⟩, h.1⟩

/-- A stored pending workflow task with id 1. -/
def task1 : WorkflowTaskRow :=
  { id := 1, user_id := 1, campaign_id := none, content_id := none,
    title := "Approve reel", description := none, status := .pending,
    priority := .medium, assigned_to := none, due_date := none,
    completed_at := none, created_at := 0, updated_at := 0 }

/-- A database holding exactly workflow task 1. -/
def dbW : DB :=
  { DB.empty with workflowTasks := [task1] }

/-- C7 witness: completing task 1 at time 11 returns the task with status
'completed' and completed_at 11, touching no other table. -/
theorem c7_updateWorkflowTaskStatus_witness :
    (updateWorkflowTaskStatus 11 1 .completed dbW).res =
      .ok (updTask 11 .completed task1) ∧
    (updTask 11 .completed task1).completed_at = some 11 ∧
    sameExceptTasks dbW (updateWorkflowTaskStatus 11 1 .completed dbW).db := by
  have h := c7_updateWorkflowTaskStatus 11 1 .completed dbW task1
    (by decide) (by decide) rfl
  exact ⟨h.1, rfl, h.2.2.2.2.2.2.2.2.2.2.2.2.2.2.2⟩

/-! ## C9 -/

/-- C9: the `assignedToMe` flag of `getWorkflowTasksByUser` selects the
ownership condition three ways — `some true` keeps tasks assigned to the
user, `some false` keeps tasks created by the user, and omitting the flag
keeps tasks created by or assigned to the user — and in all three cases the
optional status and priority filters are intersected with that condition. -/
theorem c9_getWorkflowTasksByUser_cases (uid : Nat)
    (status? : Option WorkflowStatus) (priority? : Option PriorityLevel)
    (db : DB) :
    (∀ t, t ∈ getWorkflowTasksByUser uid status? priority? (some true) db ↔
      (t ∈ db.workflowTasks ∧ t.assigned_to = some uid ∧
       (∀ s, status? = some s → t.status = s) ∧
       (∀ p, priority? = some p → t.priority = p))) ∧
    (∀ t, t ∈ getWorkflowTasksByUser uid status? priority? (some false) db ↔
      (t ∈ db.workflowTasks ∧ t.user_id = uid ∧
       (∀ s, status? = some s → t.status = s) ∧
       (∀ p, priority? = some p → t.priority = p))) ∧
    (∀ t, t ∈ getWorkflowTasksByUser uid status? priority? none db ↔
      (t ∈ db.workflowTasks ∧ (t.user_id = uid ∨ t.assigned_to = some uid) ∧
       (∀ s, status? = some s → t.status = s) ∧
       (∀ p, priority? = some p → t.priority = p))) := by
  refine ⟨fun t => ?_, fun t => ?_, fun t => ?_⟩ <;>
    cases status? <;> cases priority? <;>
      simp [getWorkflowTasksByUser, List.mem_filter, and_assoc]

/-- A task created by user 2 and assigned to user 1. -/
def task2 : WorkflowTaskRow :=
  { id := 2, user_id := 2, campaign_id := none, content_id := none,
    title := "Review script", description := none, status := .pending,
    priority := .high, assigned_to := some 1, due_date := none,
    completed_at := none, created_at := 0, updated_at := 0 }

/-- A database holding task 1 (created by user 1) and task 2 (assigned to
user 1). -/
def dbW9 : DB :=
  { DB.empty with workflowTasks := [task1, task2] }

/-- C9 witness: on the two-task database, `assignedToMe` true selects only
the assigned task, false only the created one, and the omitted flag both. -/
theorem c9_getWorkflowTasksByUser_cases_witness :
    (task2 ∈ getWorkflowTasksByUser 1 none none (some true) dbW9 ↔
      (task2 ∈ dbW9.workflowTasks ∧ task2.assigned_to = some 1 ∧
       (∀ s, (none : Option WorkflowStatus) = some s → task2.status = s) ∧
       (∀ p, (none : Option PriorityLevel) = some p → task2.priority = p))) ∧
    getWorkflowTasksByUser 1 none none (some true) dbW9 = [task2] ∧
    getWorkflowTasksByUser 1 none none (some false) dbW9 = [task1] ∧
    getWorkflowTasksByUser 1 none none none dbW9 = [task1, task2] :=
  ⟨(c9_getWorkflowTasksByUser_cases 1 none none dbW9).1 task2,
   by decide, by decide, by decide⟩

/-! ## C10 -/

/-- C10: `getContentByUser` replaces a falsy pagination option with its
default: a limit of 0 behaves exactly like the default limit 20, an omitted
offset behaves exactly like offset 0, and for an existing user with stored
content a call with limit 0 returns a non-empty list of at most 20 items
rather than an empty one. -/
theorem c10_getContentByUser_defaults :
    (∀ (uid : Nat) (opts : GetContentOptions) (db : DB),
      getContentByUser uid { opts with limit := some 0 } db =
      getContentByUser uid { opts with limit := none } db) ∧
    (∀ (uid : Nat) (opts : GetContentOptions) (db : DB),
      getContentByUser uid { opts with offset := none } db =
      getContentByUser uid { opts with offset := some 0 } db) ∧
    (∀ (uid : Nat) (db : DB), (∃ u ∈ db.users, u.id = uid) →
      (∃ c ∈ db.content, c.user_id = uid) →
      ∃ l, getContentByUser uid { limit := some 0 } db = .ok l ∧
        l ≠ [] ∧ l.length ≤ 20) := by
  refine ⟨fun uid opts db => rfl, fun uid opts db => rfl, fun uid db hu hc => ?_⟩
  obtain ⟨c0, hc0, hcu⟩ := hc
  unfold getContentByUser
  dsimp only
  rw [if_pos ((anyKeyIff (fun u => u.id) db.users uid).mpr hu)]
  refine ⟨_, rfl, ?_, ?_⟩
  · have hcmem : c0 ∈ db.content.filter
        (fun c => c.user_id == uid && true && true) :=
      List.mem_filter.mpr ⟨hc0, by simp [hcu]⟩
    have hlen : 0 < (db.content.filter
        (fun c => c.user_id == uid && true && true)).length :=
      List.length_pos.mpr (List.ne_nil_of_mem hcmem)
    have hlenX : 0 < ((db.content.filter
        (fun c => c.user_id == uid && true && true)).mergeSort contentLe).length := by
      rw [List.length_mergeSort]
      exact hlen
    intro hnil
    rw [show jsOrNum (some 0) 20 = 20 from rfl,
      show jsOrNum none 0 = 0 from rfl, List.drop_zero] at hnil
    have hlen2 := congrArg List.length hnil
    rw [List.length_take, List.length_nil] at hlen2
    omega
  · simp only [jsOrNum]
    exact List.length_take_le _ _

/-- C10 witness: user 1 with one stored content item; limit 0 yields that
item, not the empty list. -/
theorem c10_getContentByUser_defaults_witness :
    (∃ l, getContentByUser 1 { limit := some 0 } dbFull = .ok l ∧
      l ≠ [] ∧ l.length ≤ 20) ∧
    getContentByUser 1 { limit := some 0 } dbFull = .ok [cont1] :=
  ⟨c10_getContentByUser_defaults.2.2 1 dbFull
    ⟨u1, by simp [dbFull, DB.empty], rfl⟩
    ⟨cont1, by simp [dbFull, DB.empty], rfl⟩,
   by simp [getContentByUser, dbFull, DB.empty, u1, cont1, jsOrNum,
     List.mergeSort_singleton]⟩

/-! ## C8 -/

/-- Every table of `db'` extends the corresponding table of `db` by
appending rows at the end. -/
def tablesPrefix (db db' : DB) : Prop :=
  prefixOf db.users db'.users ∧
  prefixOf db.platformAccounts db'.platformAccounts ∧
  prefixOf db.trends db'.trends ∧
  prefixOf db.content db'.content ∧
  prefixOf db.scheduledPosts db'.scheduledPosts ∧
  prefixOf db.campaigns db'.campaigns ∧
  prefixOf db.campaignMetrics db'.campaignMetrics ∧
  prefixOf db.workflowTasks db'.workflowTasks ∧
  prefixOf db.aiContentRequests db'.aiContentRequests

/-- What one procedure call may do to the stored rows: reads leave the state
unchanged, creates only append rows, and the status update touches no table
but `workflow_tasks`, preserves all task ids, leaves rows with a different
id untouched, and (under the distinct serial ids) replaces exactly the
matched row with its update — so no exposed procedure ever removes a stored
row. -/
def noRowRemoved (now : Timestamp) (p : Proc) (db db' : DB) : Prop :=
  match p with
  | .healthcheck | .getUsers | .getPlatformAccountsByUser _ | .getTrends _ _
  | .getContentByUser _ | .getScheduledPostsByUser _ _
  | .getCampaignsByUser _ _ | .getCampaignMetrics _ _ _
  | .getWorkflowTasksByUser _ _ _ _ | .getAIContentRequestsByUser _ => db' = db
  | .updateWorkflowTaskStatus taskId status =>
      sameExceptTasks db db' ∧
      db'.workflowTasks.map (fun t => t.id) =
        db.workflowTasks.map (fun t => t.id) ∧
      (∀ t ∈ db.workflowTasks, t.id ≠ taskId → t ∈ db'.workflowTasks) ∧
      ((db.workflowTasks.map (fun t => t.id)).Nodup →
        ∀ t0 ∈ db.workflowTasks, t0.id = taskId →
          ∃ l1 l2, db.workflowTasks = l1 ++ t0 :: l2 ∧
            db'.workflowTasks = l1 ++ updTask now status t0 :: l2)
  | _ => tablesPrefix db db'

theorem tablesPrefix_refl (db : DB) : tablesPrefix db db :=
  ⟨prefixOf_refl _, prefixOf_refl _, prefixOf_refl _, prefixOf_refl _,
   prefixOf_refl _, prefixOf_refl _, prefixOf_refl _, prefixOf_refl _,
   prefixOf_refl _⟩

/-- A successful `insertPlatformAccountRow` only appends its row. -/
theorem insertPlatformAccountRow_prefix (db : DB) (row : PlatformAccountRow) (db2 : DB)
    (h : insertPlatformAccountRow db row = .ok db2) : tablesPrefix db db2 := by
  unfold insertPlatformAccountRow at h
  split at h
  · injection h with h
    subst h
    refine ⟨?_, ?_, ?_, ?_, ?_, ?_, ?_, ?_, ?_⟩ <;>
      first
        | exact prefixOf_refl _
        | exact prefixOf_append _ _
  · cases h

/-- A successful `insertTrendRow` only appends its row. -/
theorem insertTrendRow_prefix (db : DB) (row : TrendRow) (db2 : DB)
    (h : insertTrendRow db row = .ok db2) : tablesPrefix db db2 := by
  unfold insertTrendRow at h
  injection h with h
  subst h
  refine ⟨?_, ?_, ?_, ?_, ?_, ?_, ?_, ?_, ?_⟩ <;>
    first
      | exact prefixOf_refl _
      | exact prefixOf_append _ _

/-- A successful `insertContentRow` only appends its row. -/
theorem insertContentRow_prefix (db : DB) (row : ContentRow) (db2 : DB)
    (h : insertContentRow db row = .ok db2) : tablesPrefix db db2 := by
  unfold insertContentRow at h
  split at h
  · injection h with h
    subst h
    refine ⟨?_, ?_, ?_, ?_, ?_, ?_, ?_, ?_, ?_⟩ <;>
      first
        | exact prefixOf_refl _
        | exact prefixOf_append _ _
  · cases h

/-- A successful `insertScheduledPostRow` only appends its row. -/
theorem insertScheduledPostRow_prefix (db : DB) (row : ScheduledPostRow) (db2 : DB)
    (h : insertScheduledPostRow db row = .ok db2) : tablesPrefix db db2 := by
  unfold insertScheduledPostRow at h
  split at h
  · injection h with h
    subst h
    refine ⟨?_, ?_, ?_, ?_, ?_, ?_, ?_, ?_, ?_⟩ <;>
      first
        | exact prefixOf_refl _
        | exact prefixOf_append _ _
  · cases h

/-- A successful `insertCampaignRow` only appends its row. -/
theorem insertCampaignRow_prefix (db : DB) (row : CampaignRow) (db2 : DB)
    (h : insertCampaignRow db row = .ok db2) : tablesPrefix db db2 := by
  unfold insertCampaignRow at h
  split at h
  · injection h with h
    subst h
    refine ⟨?_, ?_, ?_, ?_, ?_, ?_, ?_, ?_, ?_⟩ <;>
      first
        | exact prefixOf_refl _
        | exact prefixOf_append _ _
  · cases h

/-- A successful `insertCampaignMetricRow` only appends its row. -/
theorem insertCampaignMetricRow_prefix (db : DB) (row : CampaignMetricRow) (db2 : DB)
    (h : insertCampaignMetricRow db row = .ok db2) : tablesPrefix db db2 := by
  unfold insertCampaignMetricRow at h
  split at h
  · injection h with h
    subst h
    refine ⟨?_, ?_, ?_, ?_, ?_, ?_, ?_, ?_, ?_⟩ <;>
      first
        | exact prefixOf_refl _
        | exact prefixOf_append _ _
  · cases h

/-- A successful `insertWorkflowTaskRow` only appends its row. -/
theorem insertWorkflowTaskRow_prefix (db : DB) (row : WorkflowTaskRow) (db2 : DB)
    (h : insertWorkflowTaskRow db row = .ok db2) : tablesPrefix db db2 := by
  unfold insertWorkflowTaskRow at h
  split at h
  · injection h with h
    subst h
    refine ⟨?_, ?_, ?_, ?_, ?_, ?_, ?_, ?_, ?_⟩ <;>
      first
        | exact prefixOf_refl _
        | exact prefixOf_append _ _
  · cases h

/-- A successful `insertAIContentRequestRow` only appends its row. -/
theorem insertAIContentRequestRow_prefix (db : DB) (row : AIContentRequestRow) (db2 : DB)
    (h : insertAIContentRequestRow db row = .ok db2) : tablesPrefix db db2 := by
  unfold insertAIContentRequestRow at h
  split at h
  · injection h with h
    subst h
    refine ⟨?_, ?_, ?_, ?_, ?_, ?_, ?_, ?_, ?_⟩ <;>
      first
        | exact prefixOf_refl _
        | exact prefixOf_append _ _
  · cases h

/-- C8: no exposed procedure of `appRouter` ever removes a stored row — for
every state, create procedures only append rows, the one update procedure
modifies exactly the matched workflow-task row in place, and every read
procedure leaves the database unchanged. -/
theorem c8_no_row_removed (now : Timestamp) (p : Proc) (db : DB) :
    noRowRemoved now p db (step now p db) := by
  cases p with
  | healthcheck => rfl
  | getUsers => rfl
  | getPlatformAccountsByUser uid => rfl
  | getTrends pl lim => rfl
  | getContentByUser uid => rfl
  | getScheduledPostsByUser uid st => rfl
  | getCampaignsByUser uid st => rfl
  | getCampaignMetrics cid pl mn => rfl
  | getWorkflowTasksByUser uid st pr am => rfl
  | getAIContentRequestsByUser uid => rfl
  | createUser inp =>
      exact tablesPrefix_refl db
  | createPlatformAccount inp =>
      show tablesPrefix db (createPlatformAccount now inp db).db
      unfold createPlatformAccount
      dsimp only
      repeat' split
      all_goals first
        | exact tablesPrefix_refl db
        | exact insertPlatformAccountRow_prefix db _ _ (by assumption)
  | createTrend inp =>
      show tablesPrefix db (createTrend now inp db).db
      unfold createTrend
      dsimp only
      repeat' split
      all_goals first
        | exact tablesPrefix_refl db
        | exact insertTrendRow_prefix db _ _ (by assumption)
  | createContent inp =>
      show tablesPrefix db (createContent now inp db).db
      unfold createContent
      dsimp only
      repeat' split
      all_goals first
        | exact tablesPrefix_refl db
        | exact insertContentRow_prefix db _ _ (by assumption)
  | createScheduledPost inp =>
      show tablesPrefix db (createScheduledPost now inp db).db
      unfold createScheduledPost
      dsimp only
      repeat' split
      all_goals first
        | exact tablesPrefix_refl db
        | exact insertScheduledPostRow_prefix db _ _ (by assumption)
  | createCampaign inp =>
      show tablesPrefix db (createCampaign now inp db).db
      unfold createCampaign
      dsimp only
      repeat' split
      all_goals first
        | exact tablesPrefix_refl db
        | exact insertCampaignRow_prefix db _ _ (by assumption)
  | createCampaignMetric inp =>
      show tablesPrefix db (createCampaignMetric now inp db).db
      unfold createCampaignMetric
      dsimp only
      repeat' split
      all_goals first
        | exact tablesPrefix_refl db
        | exact insertCampaignMetricRow_prefix db _ _ (by assumption)
  | createWorkflowTask inp =>
      show tablesPrefix db (createWorkflowTask now inp db).db
      unfold createWorkflowTask
      dsimp only
      repeat' split
      all_goals first
        | exact tablesPrefix_refl db
        | exact insertWorkflowTaskRow_prefix db _ _ (by assumption)
  | createAIContentRequest inp =>
      show tablesPrefix db (createAIContentRequest now inp db).db
      unfold createAIContentRequest
      dsimp only
      repeat' split
      all_goals first
        | exact tablesPrefix_refl db
        | exact insertAIContentRequestRow_prefix db _ _ (by assumption)
  | updateWorkflowTaskStatus taskId status =>
      have h := updateShape now taskId status db
      refine ⟨h.1, h.2.1, h.2.2.1, fun hnd t0 ht0 hid => ?_⟩
      obtain ⟨l1, l2, h1, h2, _⟩ := h.2.2.2 hnd t0 ht0 hid
      exact ⟨l1, l2, h1, h2⟩

/-- C8 witness: a read leaves the empty database unchanged and a create on
the one-trend database only appends. -/
theorem c8_no_row_removed_witness :
    noRowRemoved 0 .getUsers DB.empty (step 0 .getUsers DB.empty) ∧
    noRowRemoved 5 (.createTrend inpC6w) dbT (step 5 (.createTrend inpC6w) dbT) ∧
    step 0 .getUsers DB.empty = DB.empty :=
  ⟨c8_no_row_removed 0 .getUsers DB.empty,
   c8_no_row_removed 5 (.createTrend inpC6w) dbT, rfl⟩

end InfluencerHub
